import Mathlib

set_option linter.unusedVariables false

/-!
Verification of the Comet React Dashboard core: the dashboard store
(`src/store/dashboardStore.ts`) and the mock data gateway
(`src/services/api.ts`, `dashboardApi`), shallowly embedded in Lean.

The store is a zustand store; its async actions are modelled as pure
functions split at the `await` points: the synchronous prefix acts on the
state at invocation time, and the continuation acts on the state current
when the gateway promise settles (the code reads `get().benefits` at that
moment, never a captured copy).  Gateway outcomes (resolve vs reject) are
modelled with `Except Unit`.
-/

/-- Benefit category, the union type of `src/types/index.ts`. -/
inductive Category where
  | discount
  | voucher
  | cashback
  | exclusive
deriving DecidableEq, Repr

/-- Reward-points trend, the union type of `src/types/index.ts`. -/
inductive Trend where
  | up
  | down
  | stable
deriving DecidableEq, Repr

/-- The `Benefit` interface of `src/types/index.ts`. -/
structure Benefit where
  id : String
  title : String
  description : String
  icon : String
  value : String
  category : Category
  claimed : Bool
  expiresAt : String
  terms : Option String := none
deriving DecidableEq, Repr

/-- The `User` interface of `src/types/index.ts`. -/
structure User where
  id : String
  name : String
  email : String
  avatar : String
  level : Nat
  currentXP : Nat
  targetXP : Nat
  title : String
  memberSince : String
deriving DecidableEq, Repr

/-- The `RewardPoints` interface of `src/types/index.ts`. -/
structure RewardPoints where
  current : Nat
  total : Nat
  thisMonth : Nat
  lastMonth : Nat
  trend : Trend
  nextMilestone : Nat
deriving DecidableEq, Repr

/-- The `DashboardData` interface of `src/types/index.ts`: what
`dashboardApi.getDashboardData` resolves with. -/
structure DashboardData where
  user : User
  benefits : List Benefit
  rewardPoints : RewardPoints
  isLoading : Bool
deriving DecidableEq, Repr

/-- The state held by `useDashboardStore`.  The source sets `user`
and `rewardPoints` to `null as any`, so they are `Option` here. -/
structure DashboardState where
  user : Option User
  benefits : List Benefit
  rewardPoints : Option RewardPoints
  isLoading : Bool
deriving DecidableEq, Repr

/-- Initial store state from `dashboardStore.ts`: `user: null`,
`benefits: []`, `rewardPoints: null`, `isLoading: true`. -/
def initialState : DashboardState :=
  { user := none, benefits := [], rewardPoints := none, isLoading := true }

/-- Definition `mockUser` from `src/data/mockData.ts`. -/
def mockUser : User :=
  { id := "1"
    name := "Arjun Mehta"
    email := "arjun.mehta@example.com"
    avatar := "https://images.pexels.com/photos/2379004/pexels-photo-2379004.jpeg?auto=compress&cs=tinysrgb&w=150&h=150&dpr=2"
    level := 7
    currentXP := 2840
    targetXP := 3500
    title := "Gold Member"
    memberSince := "2022-03-15" }

/-- Definition `mockBenefits` from `src/data/mockData.ts`: six entries, the one with
id `"3"` already claimed. -/
def mockBenefits : List Benefit :=
  [ { id := "1"
      title := "20% Off Premium Dining"
      description := "Exclusive discount at top restaurants across Mumbai and Delhi"
      icon := "utensils"
      value := "₹2,500"
      category := .discount
      claimed := false
      expiresAt := "2024-02-28"
      terms := some "Valid only on weekdays. Minimum order ₹1000." }
  , { id := "2"
      title := "Netflix Premium Voucher"
      description := "3 months free Netflix subscription worth ₹2,397"
      icon := "tv"
      value := "₹2,397"
      category := .voucher
      claimed := false
      expiresAt := "2024-01-31" }
  , { id := "3"
      title := "5% Cashback on Fuel"
      description := "Get cashback on fuel payments across all major petrol pumps"
      icon := "fuel"
      value := "5%"
      category := .cashback
      claimed := true
      expiresAt := "2024-03-31" }
  , { id := "4"
      title := "Airport Lounge Access"
      description := "Complimentary access to premium airport lounges"
      icon := "plane"
      value := "Free"
      category := .exclusive
      claimed := false
      expiresAt := "2024-12-31" }
  , { id := "5"
      title := "Swiggy Super Membership"
      description := "6 months of free delivery and exclusive discounts"
      icon := "bike"
      value := "₹899"
      category := .voucher
      claimed := false
      expiresAt := "2024-02-15" }
  , { id := "6"
      title := "Myntra Fashion Voucher"
      description := "₹1000 shopping voucher for fashion and lifestyle"
      icon := "shopping-bag"
      value := "₹1,000"
      category := .voucher
      claimed := false
      expiresAt := "2024-01-30" } ]

/-- Definition `mockRewardPoints` from `src/data/mockData.ts`. -/
def mockRewardPoints : RewardPoints :=
  { current := 15420
    total := 47890
    thisMonth := 2840
    lastMonth := 3120
    trend := .down
    nextMilestone := 20000 }

namespace dashboardApi

/-- Operation `dashboardApi.getDashboardData` from `src/services/api.ts`: after the
simulated delay it unconditionally returns the aggregated mock data with
`isLoading: false`; it has no rejection path, so the model is always
`Except.ok`. -/
def getDashboardData : Except Unit DashboardData :=
  .ok { user := mockUser
        benefits := mockBenefits
        rewardPoints := mockRewardPoints
        isLoading := false }

/-- Operation `dashboardApi.claimBenefit` from `src/services/api.ts`: after the
simulated delay it returns `Math.random() > 0.1`.  The random draw is
modelled as an explicit input `r` ranging over `[0, 1)` (rationals stand
in for the IEEE doubles `Math.random` produces). -/
def claimBenefit (benefitId : String) (r : ℚ) : Bool :=
  decide (r > 1/10)

end dashboardApi

/-- Synchronous prefix of `loadDashboardData` in `dashboardStore.ts`,
before the `await`: `set({ isLoading: true })`. -/
def loadStart (s : DashboardState) : DashboardState :=
  { s with isLoading := true }

/-- Continuation of `loadDashboardData` once `getDashboardData` settles,
applied to the store state current at that moment.  On resolution the
code runs `set({ ...data, isLoading: false })`, replacing every data
field; on rejection the `catch` block logs and runs
`set({ isLoading: false })`, a zustand merge that touches nothing else. -/
def loadResolve (result : Except Unit DashboardData) (s : DashboardState) : DashboardState :=
  match result with
  | .ok data =>
      { user := some data.user
        benefits := data.benefits
        rewardPoints := some data.rewardPoints
        isLoading := false }
  | .error _ => { s with isLoading := false }

/-- Synchronous prefix of `claimBenefit` in `dashboardStore.ts`: the body
does nothing before `await dashboardApi.claimBenefit(benefitId)`, so the
state is untouched at invocation time. -/
def claimStart (benefitId : String) (s : DashboardState) : DashboardState :=
  s

/-- The function mapped over the benefits in the claim flow of the store:
`benefit.id === benefitId ? { ...benefit, claimed: true } : benefit`. -/
def claimEntry (benefitId : String) (b : Benefit) : Benefit :=
  if b.id == benefitId then { b with claimed := true } else b

/-- Continuation of the store action `claimBenefit` once the gateway call
settles, applied to the store state current at that moment (the code
reads `get().benefits` only now, inside the `if (success)` branch).  On
`true` it maps the current benefits, rebuilding the entry whose `id`
matches as `{ ...benefit, claimed: true }` and keeping every other entry;
on `false` it does nothing; on rejection the `catch` block only logs. -/
def claimResolve (benefitId : String) (result : Except Unit Bool) (s : DashboardState) : DashboardState :=
  match result with
  | .ok true => { s with benefits := s.benefits.map (claimEntry benefitId) }
  | .ok false => s
  | .error _ => s

/-- Action `setLoading` from `dashboardStore.ts`: it runs `set` with only the loading flag. -/
def setLoading (loading : Bool) (s : DashboardState) : DashboardState :=
  { s with isLoading := loading }

/-- The store state after a `load()` of the mock snapshot from the
initial state. -/
def mockLoadedState : DashboardState :=
  loadResolve dashboardApi.getDashboardData (loadStart initialState)

/-- The claim rewrite never changes the identifier of an entry. -/
theorem claimEntry_id (benefitId : String) (b : Benefit) :
    (claimEntry benefitId b).id = b.id := by
  unfold claimEntry
  split <;> rfl

/-- On a matching identifier the claim rewrite flips only `claimed`. -/
theorem claimEntry_matching (benefitId : String) (b : Benefit) (h : b.id = benefitId) :
    claimEntry benefitId b = { b with claimed := true } := by
  simp [claimEntry, h]

/-- On a non-matching identifier the claim rewrite is the identity. -/
theorem claimEntry_noop (benefitId : String) (b : Benefit) (h : ¬b.id = benefitId) :
    claimEntry benefitId b = b := by
  simp [claimEntry, h]

/-- Applying the claim rewrite twice equals applying it once. -/
theorem claimEntry_idem (benefitId : String) (b : Benefit) :
    claimEntry benefitId (claimEntry benefitId b) = claimEntry benefitId b := by
  by_cases h : b.id = benefitId <;> simp [claimEntry, h]

/-- Mapping the claim rewrite twice over a collection equals mapping it
once. -/
theorem map_claimEntry_idem (benefitId : String) (l : List Benefit) :
    (l.map (claimEntry benefitId)).map (claimEntry benefitId) = l.map (claimEntry benefitId) := by
  induction l with
  | nil => rfl
  | cons a t ih => rw [List.map_cons, List.map_cons, claimEntry_idem, ih]

/-- C1: when the gateway resolves `true` for `claimBenefit(id)`, the
resulting benefits collection has the same length, and position by
position it is the old collection with the entry whose identifier equals
`id` rebuilt with `claimed := true` and every other entry unchanged (so
no field other than that `claimed` flag is mutated). -/
theorem claim_success_pointwise (s : DashboardState) (benefitId : String) :
    (claimResolve benefitId (.ok true) s).benefits.length = s.benefits.length ∧
    ∀ i : Nat,
      (claimResolve benefitId (.ok true) s).benefits[i]? =
        (s.benefits[i]?).map
          (fun b => if b.id == benefitId then { b with claimed := true } else b) := by
  refine ⟨List.length_map _ _, fun i => ?_⟩
  exact List.getElem?_map _ _ _

/-- C2: for the interleaving [claim started, load resolves with snapshot
`d`, claim resolves `true`], the final benefits are the newly loaded
collection with the addressed entry flipped to `claimed = true`, not a
collection captured when the claim was invoked. -/
theorem claim_applies_to_current_collection
    (s0 : DashboardState) (benefitId : String) (d : DashboardData) :
    (claimResolve benefitId (.ok true)
        (loadResolve (.ok d) (loadStart (claimStart benefitId s0)))).benefits =
      d.benefits.map (fun b => if b.id == benefitId then { b with claimed := true } else b) :=
  rfl

/-- C3: every execution of `load()` ends with `isLoading = false`,
whether the gateway resolves or rejects, and in the rejection case the
`user`, `benefits` and `rewardPoints` fields keep their pre-call values. -/
theorem load_terminates_and_error_frame
    (s : DashboardState) (r : Except Unit DashboardData) :
    (loadResolve r (loadStart s)).isLoading = false ∧
    (loadResolve (.error ()) (loadStart s)).user = s.user ∧
    (loadResolve (.error ()) (loadStart s)).benefits = s.benefits ∧
    (loadResolve (.error ()) (loadStart s)).rewardPoints = s.rewardPoints := by
  refine ⟨?_, rfl, rfl, rfl⟩
  cases r with
  | ok d => rfl
  | error e => rfl

/-- C4: when the gateway resolves `false` for a claim, or the gateway
call rejects, the whole store state is exactly its pre-call value. -/
theorem claim_failure_state_unchanged (s : DashboardState) (benefitId : String) :
    claimResolve benefitId (.ok false) s = s ∧
    claimResolve benefitId (.error ()) s = s :=
  ⟨rfl, rfl⟩

/-- C5: claiming an identifier matching no entry of the collection
leaves the state unchanged for every gateway outcome. -/
theorem claim_missing_id_unchanged (s : DashboardState) (benefitId : String)
    (h : ∀ b ∈ s.benefits, b.id ≠ benefitId) (r : Except Unit Bool) :
    claimResolve benefitId r s = s := by
  have haux : ∀ l : List Benefit, (∀ b ∈ l, b.id ≠ benefitId) →
      l.map (claimEntry benefitId) = l := by
    intro l
    induction l with
    | nil => intro hl; rfl
    | cons a t ih =>
        intro hl
        rw [List.map_cons, claimEntry_noop benefitId a (hl a (List.mem_cons_self a t)),
          ih (fun b hb => hl b (List.mem_cons_of_mem a hb))]
  match r with
  | .ok true =>
      show { s with benefits := s.benefits.map (claimEntry benefitId) } = s
      rw [haux s.benefits h]
  | .ok false => rfl
  | .error e => rfl

/-- Witness for C5 at a concrete input: identifier "99" matches no mock
benefit, and a successful claim of it leaves the loaded state intact. -/
theorem claim_missing_id_unchanged_witness :
    (∀ b ∈ mockLoadedState.benefits, b.id ≠ "99") ∧
    claimResolve "99" (.ok true) mockLoadedState = mockLoadedState :=
  ⟨by decide, claim_missing_id_unchanged mockLoadedState "99" (by decide) (.ok true)⟩

/-- C6: with the random draw modelled as an input `r` from `[0, 1)`, the
gateway `claimBenefit` returns `true` exactly when `r > 0.1`, and the
result is the same for any two identifiers at the same draw; the portion
of `[0, 1)` on which the threshold holds has Lebesgue measure `9/10`,
the success probability of a uniform draw. -/
theorem gateway_claim_threshold_and_independence :
    (∀ (id1 id2 : String) (r : ℚ),
        dashboardApi.claimBenefit id1 r = dashboardApi.claimBenefit id2 r) ∧
    (∀ (benefitId : String) (r : ℚ),
        dashboardApi.claimBenefit benefitId r = true ↔ r > 1/10) ∧
    MeasureTheory.volume (Set.Ico (0:ℝ) 1 ∩ {x | 1/10 < x}) = ENNReal.ofReal (9/10) := by
  refine ⟨fun id1 id2 r => rfl, fun benefitId r => by simp [dashboardApi.claimBenefit], ?_⟩
  have hset : Set.Ico (0:ℝ) 1 ∩ {x | 1/10 < x} = Set.Ioo (1/10 : ℝ) 1 := by
    ext x
    simp only [Set.mem_inter_iff, Set.mem_Ico, Set.mem_setOf_eq, Set.mem_Ioo]
    constructor
    · rintro ⟨⟨hx0, hx1⟩, hx⟩
      exact ⟨hx, hx1⟩
    · rintro ⟨hx, hx1⟩
      exact ⟨⟨by linarith, hx1⟩, hx⟩
  rw [hset, Real.volume_Ioo]
  norm_num

/-- C7: claiming is idempotent on success: after a successful claim every
entry matching the identifier is claimed, a second successful claim of
the same identifier leaves the whole state equal to the state after the
first, and the collection length equals the original length (no
duplicate entry is created). -/
theorem claim_idempotent_on_success (s : DashboardState) (benefitId : String) :
    ((claimResolve benefitId (.ok true) s).benefits.filter
        (fun b => b.id == benefitId)).all (fun b => b.claimed) = true ∧
    claimResolve benefitId (.ok true) (claimResolve benefitId (.ok true) s) =
      claimResolve benefitId (.ok true) s ∧
    (claimResolve benefitId (.ok true)
        (claimResolve benefitId (.ok true) s)).benefits.length = s.benefits.length := by
  refine ⟨?_, ?_, ?_⟩
  · show ((s.benefits.map (claimEntry benefitId)).filter
        (fun b => b.id == benefitId)).all (fun b => b.claimed) = true
    induction s.benefits with
    | nil => rfl
    | cons a t ih =>
        by_cases h : a.id = benefitId
        · simp [List.filter_cons, claimEntry_id, claimEntry_matching benefitId a h, h, ih]
        · simp [List.filter_cons, claimEntry_id, claimEntry_noop benefitId a h, h, ih]
  · show { s with benefits := (s.benefits.map (claimEntry benefitId)).map (claimEntry benefitId) } =
      { s with benefits := s.benefits.map (claimEntry benefitId) }
    rw [map_claimEntry_idem]
  · show ((s.benefits.map (claimEntry benefitId)).map (claimEntry benefitId)).length =
      s.benefits.length
    rw [map_claimEntry_idem]
    exact List.length_map _ _

/-- A collection violating the identifier-uniqueness precondition: two
distinct entries share the identifier "1".  Concrete input used to
exhibit how the claim action of the store behaves on duplicates. -/
def dupState : DashboardState :=
  { user := none
    rewardPoints := none
    isLoading := false
    benefits :=
      [ { id := "1", title := "first copy", description := "d1", icon := "i1", value := "v1",
          category := .discount, claimed := false, expiresAt := "2024-02-28" }
      , { id := "1", title := "second copy", description := "d2", icon := "i2", value := "v2",
          category := .voucher, claimed := false, expiresAt := "2024-03-31" } ] }

/-- C9: a successful claim sets `claimed = true` on every entry whose
identifier matches, not on exactly one: the number of matching claimed
entries afterwards equals the total number of matching entries, and on a
collection with two entries sharing id "1" a successful claim of "1"
leaves two claimed entries. -/
theorem claim_flips_all_matching (s : DashboardState) (benefitId : String) :
    (claimResolve benefitId (.ok true) s).benefits.countP
        (fun b => b.id == benefitId && b.claimed) =
      s.benefits.countP (fun b => b.id == benefitId) ∧
    (claimResolve "1" (.ok true) dupState).benefits.countP (fun b => b.claimed) = 2 := by
  constructor
  · show (s.benefits.map (claimEntry benefitId)).countP
        (fun b => b.id == benefitId && b.claimed) =
      s.benefits.countP (fun b => b.id == benefitId)
    induction s.benefits with
    | nil => rfl
    | cons a t ih =>
        by_cases h : a.id = benefitId
        · simp [List.countP_cons, claimEntry_id, claimEntry_matching benefitId a h, h, ih]
        · simp [List.countP_cons, claimEntry_id, claimEntry_noop benefitId a h, h, ih]
  · decide

/-- C10: the claim action of the store writes only the benefits field: for
every gateway outcome `user`, `rewardPoints` and `isLoading` keep their
values. -/
theorem claim_frame_only_benefits
    (s : DashboardState) (benefitId : String) (r : Except Unit Bool) :
    (claimResolve benefitId r s).user = s.user ∧
    (claimResolve benefitId r s).rewardPoints = s.rewardPoints ∧
    (claimResolve benefitId r s).isLoading = s.isLoading := by
  match r with
  | .ok true => exact ⟨rfl, rfl, rfl⟩
  | .ok false => exact ⟨rfl, rfl, rfl⟩
  | .error e => exact ⟨rfl, rfl, rfl⟩

/-- C8: the gateway snapshot fetch always succeeds and carries
`loading = false`; starting from the initial state (`isLoading = true`,
empty benefits), a resolved `load()` leaves `isLoading = false` and six
benefit entries of which exactly the one with id "3" is claimed. -/
theorem load_initial_scenario :
    initialState.isLoading = true ∧
    initialState.benefits = [] ∧
    (∃ d : DashboardData, dashboardApi.getDashboardData = .ok d ∧ d.isLoading = false) ∧
    mockLoadedState.isLoading = false ∧
    mockLoadedState.benefits.length = 6 ∧
    (mockLoadedState.benefits.filter (fun b => b.claimed)).map (fun b => b.id) = ["3"] := by
  refine ⟨rfl, rfl, ⟨_, rfl, rfl⟩, rfl, rfl, by decide⟩
